import Mathlib

/-!
Verification development for the `server_manager` repository
(`src/server_manager/vbox.py`, `src/server_manager/main.py`).

The Python code is shallowly embedded: strings are modelled as `List Char`,
Python `float` values as the inductive `PyFloat` (with rational payloads for
finite values), fallible operations (Python exceptions) as `Option`/`Except`,
and the mutable dictionaries as association lists with explicit lookup and
update functions mirroring Python `dict` behaviour.
-/

namespace ServerManager

/-! ### Python string primitives -/

/-- Characters treated as whitespace by Python's `str.strip()` /
`float()` (the ASCII whitespace set). -/
def pyIsSpace (c : Char) : Bool :=
  c = ' ' || c = '\t' || c = '\n' || c = '\r' || c = '\x0b' || c = '\x0c'

/-- Python `str.lstrip` with an arbitrary character predicate. -/
def pyLstrip (p : Char → Bool) (l : List Char) : List Char :=
  l.dropWhile p

/-- Python `str.rstrip` with an arbitrary character predicate. -/
def pyRstrip (p : Char → Bool) (l : List Char) : List Char :=
  (l.reverse.dropWhile p).reverse

/-- Python `str.strip` with an arbitrary character predicate. -/
def pyStripBy (p : Char → Bool) (l : List Char) : List Char :=
  pyRstrip p (pyLstrip p l)

/-- Python `str.strip()` (no argument: strip whitespace from both ends). -/
def pyStrip (l : List Char) : List Char :=
  pyStripBy pyIsSpace l

/-- Python `str.strip(chars)`: strip any of the given characters from both
ends. -/
def pyStripChars (cs : List Char) (l : List Char) : List Char :=
  pyStripBy (fun c => cs.contains c) l

/-- Python `str.rstrip(chars)`: strip any of the given characters from the
right end only. -/
def pyRstripChars (cs : List Char) (l : List Char) : List Char :=
  pyRstrip (fun c => cs.contains c) l

/-- Python `str.casefold` restricted to ASCII letters (the only characters
appearing in the protocol strings this program handles). -/
def pyCasefold (l : List Char) : List Char :=
  l.map fun c => if 'A' ≤ c ∧ c ≤ 'Z' then Char.ofNat (c.toNat + 32) else c

/-- Python `str.find(sub)`: index of the first occurrence of `pat`, `none`
standing for Python's `-1` result.  An empty pattern is found at index 0,
as in Python. -/
def pyFind (pat : List Char) : List Char → Option Nat
  | [] => if pat = [] then some 0 else none
  | c :: rest =>
    if pat.isPrefixOf (c :: rest) then some 0
    else (pyFind pat rest).map (· + 1)

/-- Python `str.find(ch, start)` for a single character: absolute index of
the first occurrence at or after `start`, `none` for Python's `-1`. -/
def pyFindCharFrom (l : List Char) (c : Char) (start : Nat) : Option Nat :=
  (pyFind [c] (l.drop start)).map (· + start)

/-- Left-to-right scan of `str.replace(pat, "")`, structurally recursive
on a fuel bound (one unit per character of the scanned suffix, so
`l.length` fuel always suffices and the fuel-exhausted arm is never
reached from `pyReplaceAll`). -/
def pyReplaceAllGo (pat : List Char) : Nat → List Char → List Char
  | _, [] => []
  | 0, l => l
  | fuel + 1, c :: rest =>
    if pat ≠ [] ∧ pat.isPrefixOf (c :: rest) then
      pyReplaceAllGo pat fuel (rest.drop (pat.length - 1))
    else
      c :: pyReplaceAllGo pat fuel rest

/-- Python `str.replace(pat, "")`: remove every non-overlapping occurrence
of `pat`, scanning left to right.  An empty pattern leaves the string
unchanged (Python inserts the empty replacement, which is a no-op). -/
def pyReplaceAll (pat l : List Char) : List Char :=
  pyReplaceAllGo pat l.length l

/-! ### Python float model -/

/-- Model of a Python `float` value.  Finite values carry an exact rational;
the special values `nan`, `inf` and `-inf` are explicit constructors.  (The
program only produces floats via `float(...)` on decimal text, so exact
rationals are a faithful shallow model.) -/
inductive PyFloat where
  | nan
  | inf
  | ninf
  | val (q : ℚ)
deriving DecidableEq, Repr

/-- Digit value of an ASCII digit character. -/
def digitVal (c : Char) : Nat :=
  c.toNat - '0'.toNat

/-- Value of a string of ASCII digits read in base 10. -/
def natOfDigits (l : List Char) : Nat :=
  l.foldl (fun a c => a * 10 + digitVal c) 0

/-- Decimal mantissa accepted by Python `float()`: digits with an optional
point, at least one digit overall (`"12"`, `"12.5"`, `".5"`, `"5."`). -/
def parseMantissa (l : List Char) : Option ℚ :=
  let ip := l.takeWhile Char.isDigit
  let rest := l.drop ip.length
  match rest with
  | [] => if ip = [] then none else some (natOfDigits ip : ℚ)
  | '.' :: frac =>
    if frac.all Char.isDigit ∧ (ip ≠ [] ∨ frac ≠ []) then
      some ((natOfDigits ip : ℚ) + (natOfDigits frac : ℚ) / (10 : ℚ) ^ frac.length)
    else none
  | _ => none

/-- Optionally signed decimal integer (exponent part of a float literal). -/
def parseSignedInt (l : List Char) : Option ℤ :=
  match l with
  | '+' :: d => if d ≠ [] ∧ d.all Char.isDigit then some (natOfDigits d : ℤ) else none
  | '-' :: d => if d ≠ [] ∧ d.all Char.isDigit then some (-(natOfDigits d : ℤ)) else none
  | d => if d ≠ [] ∧ d.all Char.isDigit then some (natOfDigits d : ℤ) else none

/-- Unsigned float literal: mantissa with optional `e`/`E` exponent. -/
def parseUnsignedFloat (l : List Char) : Option ℚ :=
  match l.findIdx? (fun c => c = 'e' || c = 'E') with
  | none => parseMantissa l
  | some i => do
    let m ← parseMantissa (l.take i)
    let e ← parseSignedInt (l.drop (i + 1))
    pure (m * (10 : ℚ) ^ e)

/-- Model of Python's builtin `float(str)`: surrounding whitespace stripped,
optional sign, then either a decimal literal (optional fraction and
exponent) or the case-insensitive special words `nan` / `inf` / `infinity`.
`none` models the `ValueError` raised on any other input.  (Digit-separator
underscores are not modelled; the program never produces them.) -/
def pyFloatOfString (l : List Char) : Option PyFloat :=
  let t := pyStrip l
  let sb : ℚ × List Char :=
    match t with
    | '+' :: r => (1, r)
    | '-' :: r => (-1, r)
    | r => (1, r)
  let bodyCF := pyCasefold sb.2
  if bodyCF = "nan".data then some .nan
  else if bodyCF = "inf".data ∨ bodyCF = "infinity".data then
    some (if sb.1 = 1 then .inf else .ninf)
  else (parseUnsignedFloat sb.2).map (fun q => .val (sb.1 * q))

/-- Multiplication of a Python float by a positive integer constant
(`nan * k = nan`, `±inf * k = ±inf` for `k > 0`, as in IEEE/Python). -/
def pyMulNat (x : PyFloat) (k : Nat) : PyFloat :=
  match x with
  | .nan => .nan
  | .inf => .inf
  | .ninf => .ninf
  | .val q => .val (q * k)

/-! ### Unit-aware parsers (vbox.py `parse_percent`, `parse_bytes`) -/

/-- Embedding of `parse_percent` (vbox.py:351): strip `%` characters from
both ends, then `float(...)`.  `none` models the `ValueError` raised on
malformed numeric text. -/
def parse_percent (l : List Char) : Option PyFloat :=
  pyFloatOfString (pyStripChars ['%'] l)

/-- Embedding of `parse_bytes` (vbox.py:355): strip and casefold, then test
the suffixes `" b"`, `" kb"`, `" mb"`, `" gb"` in the source's order; on a
match, right-strip the unit's characters and parse, scaling by the binary
factor; otherwise parse the whole string as a plain decimal. -/
def parse_bytes (l : List Char) : Option PyFloat :=
  let s := pyCasefold (pyStrip l)
  if (" b".data).isSuffixOf s then
    pyFloatOfString (pyRstripChars ['b'] s)
  else if (" kb".data).isSuffixOf s then
    (pyFloatOfString (pyRstripChars ['k', 'b'] s)).map (pyMulNat · 1024)
  else if (" mb".data).isSuffixOf s then
    (pyFloatOfString (pyRstripChars ['m', 'b'] s)).map (pyMulNat · (1024 * 1024))
  else if (" gb".data).isSuffixOf s then
    (pyFloatOfString (pyRstripChars ['g', 'b'] s)).map (pyMulNat · (1024 * 1024 * 1024))
  else
    pyFloatOfString s

/-! ### `VirtualMachine.query_metric` (vbox.py:69) -/

/-- The slice `stdout[metric_name_index:end_of_line_index]` computed by
`query_metric` (vbox.py:77-79): `end_of_line_index` is the result of
`stdout.find("\n", metric_name_index)`, and when that search fails Python's
`-1` makes the slice stop one character before the end of the string. -/
def lineSliceAt (stdout : List Char) (i : Nat) : List Char :=
  match pyFindCharFrom stdout '\n' i with
  | some j => (stdout.take j).drop i
  | none => (stdout.take (stdout.length - 1)).drop i

/-- Embedding of `VirtualMachine.query_metric` (vbox.py:69): decode stdout,
find the first occurrence of the counter name (absent: convert `"nan"`),
slice out the rest of that line, delete every occurrence of the name from
it and strip whitespace; an empty remainder converts `"nan"`, otherwise the
remainder is converted.  The converter returns `none` where the Python
converter raises, and that `none` propagates as `query_metric` raising. -/
def VirtualMachine.query_metric (stdout name : List Char)
    (conv : List Char → Option PyFloat) : Option PyFloat :=
  match pyFind name stdout with
  | none => conv "nan".data
  | some i =>
    if pyStrip (pyReplaceAll name (lineSliceAt stdout i)) = [] then conv "nan".data
    else conv (pyStrip (pyReplaceAll name (lineSliceAt stdout i)))

/-! ### Lifecycle states (vbox.py `VMState`) -/

/-- Embedding of the `VMState` enum (vbox.py:32). -/
inductive VMState where
  | Running
  | PowerOff
  | Paused
  | Saving
  | Saved
  | Restoring
  | Aborted
  | Other
deriving DecidableEq, Repr

/-- Embedding of the `VMState(...)` enum constructor call: each member's
raw value is matched in declaration order, and `_missing_` (vbox.py:43)
maps every unrecognized value to `Other`. -/
def VMState.ofRaw (s : List Char) : VMState :=
  if s = "running".data then .Running
  else if s = "poweroff".data then .PowerOff
  else if s = "paused".data then .Paused
  else if s = "saving".data then .Saving
  else if s = "saved".data then .Saved
  else if s = "restoring".data then .Restoring
  else if s = "aborted".data then .Aborted
  else if s = "other".data then .Other
  else .Other

/-! ### `VirtualMachineInfo` (vbox.py:117) -/

/-- The attribute snapshot `VirtualMachineInfo._info`: a Python
`dict[str, str]` modelled as an association list in insertion order. -/
abbrev AttrDict := List (List Char × List Char)

/-- Python `dict` lookup on an association list built in insertion order
where later bindings of a key override earlier ones (as `dict(...)` keeps
the last value for a duplicated key). -/
def dictGet : AttrDict → List Char → Option (List Char)
  | [], _ => none
  | (k, v) :: rest, key =>
    match dictGet rest key with
    | some r => some r
    | none => if k = key then some v else none

/-- Python `dict.get(key, default)`. -/
def dictGetD (d : AttrDict) (key dflt : List Char) : List Char :=
  (dictGet d key).getD dflt

/-- Split a character list on a separator character (used to model
iteration over the lines of decoded stdout; the hypervisor's
machine-readable output is LF-terminated). -/
def splitOnChar (c : Char) : List Char → List (List Char)
  | [] => [[]]
  | x :: rest =>
    match splitOnChar c rest with
    | [] => [[]]
    | h :: t => if x = c then [] :: h :: t else (x :: h) :: t

/-- The line parser inside `VirtualMachineInfo.reload` (vbox.py:128-135):
lines without `=` are skipped; otherwise the line is split on the first
`=`, and surrounding double quotes are stripped from both key and value. -/
def parse_vminfo (stdout : List Char) : AttrDict :=
  (splitOnChar '\n' stdout).filterMap fun line =>
    if line.contains '=' then
      let key := line.takeWhile (· != '=')
      let value := line.drop (key.length + 1)
      some (pyStripChars ['"'] key, pyStripChars ['"'] value)
    else none

/-- Embedding of the `VirtualMachineInfo.state` property (vbox.py:142):
`VMState(self._info.get("VMState", "").casefold())`. -/
def VirtualMachineInfo.state (d : AttrDict) : VMState :=
  VMState.ofRaw (pyCasefold (dictGetD d "VMState".data []))

/-- Embedding of `VirtualMachineInfo.reload` (vbox.py:125): the argument is
the outcome of the underlying `VBoxManage.run("showvminfo", ...)` process
invocation (`.error` models the call raising, `.ok` carries decoded
stdout).  The attribute snapshot is the state of the monad; a raised
exception propagates before the wholesale assignment `self._info = dict(_())`
executes, so the state is only replaced on success. -/
def VirtualMachineInfo.reload {ε : Type} (runResult : Except ε (List Char)) :
    ExceptT ε (StateM AttrDict) Unit := do
  let stdout ← ExceptT.mk (pure runResult)
  set (parse_vminfo stdout)

/-! ### Tracked counters (vbox.py `Metrics`) -/

/-- Embedding of the `Metrics` enum (vbox.py:19). -/
inductive Metrics where
  | GUEST_CPU_LOAD_USER
  | GUEST_CPU_LOAD_KERNEL
  | GUEST_RAM_USAGE_TOTAL
  | GUEST_RAM_USAGE_FREE
  | DISK_USAGE_USED
  | GUEST_RAM_USAGE_CACHE
deriving DecidableEq, Repr

/-- The raw counter name of each `Metrics` member (vbox.py:20-26). -/
def Metrics.value : Metrics → List Char
  | .GUEST_CPU_LOAD_USER => "Guest/CPU/Load/User".data
  | .GUEST_CPU_LOAD_KERNEL => "Guest/CPU/Load/Kernel".data
  | .GUEST_RAM_USAGE_TOTAL => "Guest/RAM/Usage/Total".data
  | .GUEST_RAM_USAGE_FREE => "Guest/RAM/Usage/Free".data
  | .DISK_USAGE_USED => "Disk/Usage/Used".data
  | .GUEST_RAM_USAGE_CACHE => "Guest/RAM/Usage/Cache".data

/-- The converter passed to `query_metric` for each counter in
`VboxMetricDaemon._query_metrics` (vbox.py:300-344): the CPU counters use
`parse_percent`, the RAM/disk counters use `parse_bytes`. -/
def Metrics.converter : Metrics → (List Char → Option PyFloat)
  | .GUEST_CPU_LOAD_USER => parse_percent
  | .GUEST_CPU_LOAD_KERNEL => parse_percent
  | .GUEST_RAM_USAGE_TOTAL => parse_bytes
  | .GUEST_RAM_USAGE_FREE => parse_bytes
  | .DISK_USAGE_USED => parse_bytes
  | .GUEST_RAM_USAGE_CACHE => parse_bytes

/-! ### The per-machine metric buffers (`VboxMetricDaemon.metrics`) -/

/-- One machine's value in `VboxMetricDaemon.metrics`: a dict holding one
fixed set of keys — the six tracked counters and the synthetic
`"time_stamp"` series (vbox.py:271-281).  The `time_stamp` samples are the
finite values produced by `numpy.linspace`, modelled as rationals. -/
structure VmMetrics where
  cpuLoadKernel : List PyFloat
  cpuLoadUser : List PyFloat
  ramUsageTotal : List PyFloat
  ramUsageFree : List PyFloat
  diskUsageUsed : List PyFloat
  ramUsageCache : List PyFloat
  time_stamp : List ℚ
deriving DecidableEq, Repr

/-- Subscript `vm_metric_data[metric]` for a tracked counter. -/
def VmMetrics.get (e : VmMetrics) : Metrics → List PyFloat
  | .GUEST_CPU_LOAD_KERNEL => e.cpuLoadKernel
  | .GUEST_CPU_LOAD_USER => e.cpuLoadUser
  | .GUEST_RAM_USAGE_TOTAL => e.ramUsageTotal
  | .GUEST_RAM_USAGE_FREE => e.ramUsageFree
  | .DISK_USAGE_USED => e.diskUsageUsed
  | .GUEST_RAM_USAGE_CACHE => e.ramUsageCache

/-- In-place update of one tracked counter's series. -/
def VmMetrics.set (e : VmMetrics) : Metrics → List PyFloat → VmMetrics
  | .GUEST_CPU_LOAD_KERNEL, l => { e with cpuLoadKernel := l }
  | .GUEST_CPU_LOAD_USER, l => { e with cpuLoadUser := l }
  | .GUEST_RAM_USAGE_TOTAL, l => { e with ramUsageTotal := l }
  | .GUEST_RAM_USAGE_FREE, l => { e with ramUsageFree := l }
  | .DISK_USAGE_USED, l => { e with diskUsageUsed := l }
  | .GUEST_RAM_USAGE_CACHE, l => { e with ramUsageCache := l }

/-- The daemon's store `VboxMetricDaemon.metrics`, a `dict[str, ...]`
keyed by machine id, modelled as an association list whose lookup returns
the first binding (updates prepend a fresh binding, and the dict
comprehension in `_refresh_metrics_storage` binds equal values to any
duplicated id, so first-binding lookup agrees with Python `dict`). -/
abbrev MetricStore := List (String × VmMetrics)

/-- `self.metrics.get(id)` (`none` when the id is absent). -/
def storeGet : MetricStore → String → Option VmMetrics
  | [], _ => none
  | (k, v) :: rest, id => if k = id then some v else storeGet rest id

/-- `self.metrics[id] = e`. -/
def storeSet (st : MetricStore) (id : String) (e : VmMetrics) : MetricStore :=
  (id, e) :: st

/-- Embedding of `numpy.linspace(start, stop, num)` over exact rationals:
`num` evenly spaced samples from `start` to `stop` inclusive. -/
def linspace (start stop : ℚ) (num : Nat) : List ℚ :=
  if num = 0 then []
  else if num = 1 then [start]
  else (List.range num).map fun i : Nat =>
    start + (i : ℚ) * (stop - start) / ((num : ℚ) - 1)

/-- `VboxMetricDaemon.tick_number` (vbox.py:251). -/
def tick_number : Nat := 120

/-- The daemon's default `interval_seconds` (vbox.py:247), the float
literal `0.2`, modelled as the exact rational it denotes in source text. -/
def interval_seconds : ℚ := 1 / 5

/-- The fresh per-machine buffer allocated by `_refresh_metrics_storage`
for an id not yet present (vbox.py:273-281): every tracked counter seeded
with `tick_number` copies of `nan`, and `time_stamp` seeded with
`numpy.linspace(-(tick_number * interval_seconds), 0, tick_number)`. -/
def freshVmMetrics (n : Nat) (interval : ℚ) : VmMetrics where
  cpuLoadKernel := List.replicate n PyFloat.nan
  cpuLoadUser := List.replicate n PyFloat.nan
  ramUsageTotal := List.replicate n PyFloat.nan
  ramUsageFree := List.replicate n PyFloat.nan
  diskUsageUsed := List.replicate n PyFloat.nan
  ramUsageCache := List.replicate n PyFloat.nan
  time_stamp := linspace (-(n * interval)) 0 n

/-- Embedding of `VboxMetricDaemon._refresh_metrics_storage`
(vbox.py:259): `self.metrics` is replaced by a dict comprehension over the
machines returned by `list_vm()` (here the list of their ids), keeping the
existing entry for an id already present and allocating a fresh buffer
otherwise. -/
def VboxMetricDaemon.refresh_metrics_storage (st : MetricStore)
    (listing : List String) (n : Nat) (interval : ℚ) : MetricStore :=
  listing.map fun id =>
    (id,
      match storeGet st id with
      | some e => e
      | none => freshVmMetrics n interval)

/-! ### One tick of `VboxMetricDaemon._query_metrics` (vbox.py:288) -/

/-- The exceptions that can abort a counter's query-and-append step: the
external process invocation raising, the converter raising `ValueError` on
malformed text, and the `KeyError` of subscripting the empty dict that
`self.metrics.get(vm.id, {})` returns for an unknown id. -/
inductive PyErr where
  | procError
  | valueError
  | keyError
deriving DecidableEq, Repr

/-- The order in which `_query_metrics` visits the six counters of one
machine (vbox.py:300-344). -/
def tickOrder : List Metrics :=
  [.GUEST_CPU_LOAD_KERNEL, .GUEST_CPU_LOAD_USER, .GUEST_RAM_USAGE_TOTAL,
   .GUEST_RAM_USAGE_FREE, .DISK_USAGE_USED, .GUEST_RAM_USAGE_CACHE]

/-- `series.append(value)` followed by `series.pop(0)`: the appended list
is never empty, so the `pop` is total. -/
def appendPop (l : List PyFloat) (v : PyFloat) : List PyFloat :=
  (l ++ [v]).tail

/-- One counter's query-and-append step inside a `with log_error()` block
(vbox.py:300-306 and its five siblings): `q m` is the outcome of the
`metrics query` process invocation for this machine and counter (`.error`
models the invocation raising); on success the converter is applied via
`query_metric`, a converter failure models the raised `ValueError`; on a
converted value the series is appended to and its oldest sample popped. -/
def counterStep (q : Metrics → Except PyErr (List Char)) (m : Metrics)
    (e : VmMetrics) : Except PyErr VmMetrics :=
  match q m with
  | .error err => .error err
  | .ok stdout =>
    match VirtualMachine.query_metric stdout m.value m.converter with
    | none => .error .valueError
    | some v => .ok (e.set m (appendPop (e.get m) v))

/-- The six counter steps of one machine, in source order.  `log_error`
(vbox.py:234) prints the exception and **re-raises** it, so the first
failing step aborts the remaining steps; the buffer mutations already
applied persist (the dict values are mutated in place). -/
def queryMachineGo (q : Metrics → Except PyErr (List Char)) :
    List Metrics → VmMetrics → VmMetrics × Option PyErr
  | [], e => (e, none)
  | m :: rest, e =>
    match counterStep q m e with
    | .error err => (e, some err)
    | .ok e' => queryMachineGo q rest e'

/-- The whole per-machine body of the `for vm in self.vbox.list_vm()` loop
(vbox.py:295-346), restricted to its store effects (`metrics_setup` only
runs an external command). -/
def queryMachine (q : Metrics → Except PyErr (List Char)) (e : VmMetrics) :
    VmMetrics × Option PyErr :=
  queryMachineGo q tickOrder e

/-- The machine loop of one tick: machines are visited in listing order;
`vm_metric_data = self.metrics.get(vm.id, {})` followed by subscripting
raises `KeyError` for an unknown id; a re-raised exception from any
machine's counter step aborts the loop (and with it the daemon thread),
leaving the store as mutated so far. -/
def queryLoop (q : String → Metrics → Except PyErr (List Char)) :
    List String → MetricStore → MetricStore × Option PyErr
  | [], st => (st, none)
  | id :: rest, st =>
    match storeGet st id with
    | none => (st, some .keyError)
    | some entry =>
      match queryMachine (q id) entry with
      | (entry', none) => queryLoop q rest (storeSet st id entry')
      | (entry', some err) => (storeSet st id entry', some err)

/-- The store-relevant part of one iteration of the `while self.keep_alive`
loop in `VboxMetricDaemon._query_metrics` (vbox.py:289-348):
`metrics_enable` and `metrics_collect` only run external commands, then
`_refresh_metrics_storage()` resynchronizes membership, then every listed
machine's counters are queried and appended.  Both `list_vm()` calls of
the iteration are modelled by the same `listing`.  The second component is
the exception that escaped the loop, `none` when the tick completed. -/
def VboxMetricDaemon.query_metrics_tick
    (n : Nat) (interval : ℚ) (q : String → Metrics → Except PyErr (List Char))
    (listing : List String) (st : MetricStore) : MetricStore × Option PyErr :=
  queryLoop q listing (VboxMetricDaemon.refresh_metrics_storage st listing n interval)

/-! ### Lifecycle control (main.py `_vm_control_buttons`) -/

/-- The six lifecycle operations offered by the control buttons
(main.py:109-202). -/
inductive LifecycleOp where
  | start
  | shutdown
  | kill
  | pause
  | save
  | resume
deriving DecidableEq, Repr

/-- Modelled from the spec: the `VirtualMachine` lifecycle methods
`start`, `shutdown`, `kill`, `pause`, `save` and `resume` invoked by the
main.py handlers are absent from the sources; per the spec each issues
exactly one corresponding hypervisor subcommand against the machine id. -/
def lifecycleCommands (op : LifecycleOp) (id : String) : List (List String) :=
  match op with
  | .start => [["start", id]]
  | .shutdown => [["shutdown", id]]
  | .kill => [["kill", id]]
  | .pause => [["pause", id]]
  | .save => [["save", id]]
  | .resume => [["resume", id]]

/-- The state each handler compares against after its advisory reload
(main.py:115, 130, 148, 165, 180, 195). -/
def expectedTargetState : LifecycleOp → VMState
  | .start => .Running
  | .shutdown => .PowerOff
  | .kill => .PowerOff
  | .pause => .Paused
  | .save => .Saved
  | .resume => .Running

/-- Observable outcome of one control-button handler. -/
structure LifecycleRun where
  issued : List (List String)
  settleDelaySeconds : ℚ
  reloads : Nat
  success : Bool
deriving DecidableEq, Repr

/-- Embedding of the `_start`/`_shutdown`/`_kill`/`_pause`/`_save`/
`_resume` handlers (main.py:109-202): issue the operation's hypervisor
command(s), `time.sleep(1)`, reload the machine's info once, and report
success exactly when the reloaded state equals the handler's expected
state; there is no retry.  `reloaded` is the state decoded from the
advisory reload. -/
def vmControlHandler (op : LifecycleOp) (id : String) (reloaded : VMState) :
    LifecycleRun where
  issued := lifecycleCommands op id
  settleDelaySeconds := 1
  reloads := 1
  success := reloaded = expectedTargetState op

/-! ## Helper lemmas -/

/-- Complete description of a resynchronized store's lookups: an id keeps
its old buffer when it is listed and already present, gets a fresh buffer
when listed and absent, and has no entry when unlisted. -/
theorem storeGet_refresh (st : MetricStore) (listing : List String) (n : Nat)
    (interval : ℚ) (id : String) :
    storeGet (VboxMetricDaemon.refresh_metrics_storage st listing n interval) id =
      if id ∈ listing then some ((storeGet st id).getD (freshVmMetrics n interval))
      else none := by
  induction listing with
  | nil => simp [VboxMetricDaemon.refresh_metrics_storage, storeGet]
  | cons id0 rest ih =>
    by_cases h : id0 = id
    · subst h
      cases hx : storeGet st id0 <;>
        simp [VboxMetricDaemon.refresh_metrics_storage, storeGet, hx]
    · simpa [VboxMetricDaemon.refresh_metrics_storage, storeGet, h,
        Ne.symm h] using ih

/-- A failing query-and-append step for counter `m`: either the external
`metrics query` invocation raises, or the converter raises `ValueError` on
the value text (the spec's execution error and parse error). -/
def counterQueryFails (q : Metrics → Except PyErr (List Char)) (m : Metrics) : Prop :=
  (∃ err, q m = .error err) ∨
  (∃ s, q m = .ok s ∧
    VirtualMachine.query_metric s m.value m.converter = none)

/-- All six counter series of one machine buffer have length `n`. -/
def lenOk (e : VmMetrics) (n : Nat) : Prop :=
  e.cpuLoadKernel.length = n ∧ e.cpuLoadUser.length = n ∧
  e.ramUsageTotal.length = n ∧ e.ramUsageFree.length = n ∧
  e.diskUsageUsed.length = n ∧ e.ramUsageCache.length = n

instance (e : VmMetrics) (n : Nat) : Decidable (lenOk e n) := by
  unfold lenOk
  infer_instance

/-- Every machine buffer appearing in the store has all-`n` series. -/
def storeLenInv (st : MetricStore) (n : Nat) : Prop :=
  ∀ p ∈ st, lenOk p.2 n

instance (st : MetricStore) (n : Nat) : Decidable (storeLenInv st n) :=
  List.decidableBAll _ st

theorem VmMetrics.get_set (e : VmMetrics) (m m' : Metrics) (v : List PyFloat) :
    (e.set m v).get m' = if m' = m then v else e.get m' := by
  cases m <;> cases m' <;> simp [VmMetrics.get, VmMetrics.set]

theorem VmMetrics.time_stamp_set (e : VmMetrics) (m : Metrics) (v : List PyFloat) :
    (e.set m v).time_stamp = e.time_stamp := by
  cases m <;> rfl

theorem lenOk_get {e : VmMetrics} {n : Nat} (h : lenOk e n) (m : Metrics) :
    (e.get m).length = n := by
  cases m <;> simp_all [lenOk, VmMetrics.get]

theorem lenOk_set {e : VmMetrics} {n : Nat} (h : lenOk e n) (m : Metrics)
    {v : List PyFloat} (hv : v.length = n) : lenOk (e.set m v) n := by
  cases m <;> simp_all [lenOk, VmMetrics.set]

theorem appendPop_length (l : List PyFloat) (v : PyFloat) :
    (appendPop l v).length = l.length := by
  simp [appendPop]

theorem counterStep_ok {q : Metrics → Except PyErr (List Char)} {m : Metrics}
    {e e' : VmMetrics} (h : counterStep q m e = .ok e') :
    ∃ v, e' = e.set m (appendPop (e.get m) v) := by
  unfold counterStep at h
  cases hq : q m with
  | error err => rw [hq] at h; cases h
  | ok s =>
    simp only [hq] at h
    cases hv : VirtualMachine.query_metric s m.value m.converter with
    | none =>
      simp only [hv] at h
      exact Except.noConfusion h
    | some v =>
      simp only [hv, Except.ok.injEq] at h
      exact ⟨v, h.symm⟩

theorem counterQueryFails_not_ok {q : Metrics → Except PyErr (List Char)}
    {m : Metrics} (hfail : counterQueryFails q m) (e e' : VmMetrics) :
    counterStep q m e ≠ .ok e' := by
  unfold counterStep
  rcases hfail with ⟨err, herr⟩ | ⟨s, hs, hnone⟩
  · rw [herr]
    exact fun h => by cases h
  · simp only [hs, hnone]
    exact fun h => by cases h

theorem queryMachineGo_time_stamp (q : Metrics → Except PyErr (List Char))
    (ms : List Metrics) : ∀ e : VmMetrics,
    (queryMachineGo q ms e).1.time_stamp = e.time_stamp := by
  induction ms with
  | nil => intro e; rfl
  | cons m rest ih =>
    intro e
    simp only [queryMachineGo]
    cases hc : counterStep q m e with
    | error err => rfl
    | ok e' =>
      obtain ⟨v, hv⟩ := counterStep_ok hc
      rw [ih e', hv, VmMetrics.time_stamp_set]

theorem queryMachineGo_get_of_fails {q : Metrics → Except PyErr (List Char)}
    {m : Metrics} (hfail : counterQueryFails q m) (ms : List Metrics) :
    ∀ e : VmMetrics, ((queryMachineGo q ms e).1).get m = e.get m := by
  induction ms with
  | nil => intro e; rfl
  | cons m0 rest ih =>
    intro e
    simp only [queryMachineGo]
    cases hc : counterStep q m0 e with
    | error err => rfl
    | ok e' =>
      obtain ⟨v, hv⟩ := counterStep_ok hc
      have hne : m ≠ m0 := by
        rintro rfl
        exact counterQueryFails_not_ok hfail e e' hc
      rw [ih e', hv, VmMetrics.get_set, if_neg hne]

theorem queryMachineGo_lenOk {n : Nat} (q : Metrics → Except PyErr (List Char))
    (ms : List Metrics) : ∀ e : VmMetrics, lenOk e n →
    lenOk (queryMachineGo q ms e).1 n := by
  induction ms with
  | nil => intro e he; exact he
  | cons m rest ih =>
    intro e he
    simp only [queryMachineGo]
    cases hc : counterStep q m e with
    | error err => exact he
    | ok e' =>
      obtain ⟨v, hv⟩ := counterStep_ok hc
      refine ih e' ?_
      rw [hv]
      exact lenOk_set he m (by rw [appendPop_length]; exact lenOk_get he m)

theorem storeGet_mem {st : MetricStore} {id : String} {e : VmMetrics}
    (h : storeGet st id = some e) : (id, e) ∈ st := by
  induction st with
  | nil => cases h
  | cons p rest ih =>
    obtain ⟨k, v⟩ := p
    by_cases hk : k = id
    · subst hk
      rw [storeGet, if_pos rfl] at h
      injection h with h
      subst h
      exact List.mem_cons_self _ _
    · rw [storeGet, if_neg hk] at h
      exact List.mem_cons_of_mem _ (ih h)

theorem storeGet_storeSet_self (st : MetricStore) (id : String) (e : VmMetrics) :
    storeGet (storeSet st id e) id = some e := by
  simp [storeSet, storeGet]

theorem storeGet_storeSet_ne (st : MetricStore) {id id' : String}
    (h : id ≠ id') (e : VmMetrics) :
    storeGet (storeSet st id e) id' = storeGet st id' := by
  simp [storeSet, storeGet, h]

theorem queryLoop_storeGet_ts (q : String → Metrics → Except PyErr (List Char))
    (l : List String) : ∀ (st : MetricStore) (id : String) (e : VmMetrics),
    storeGet st id = some e →
    ∃ e2, storeGet (queryLoop q l st).1 id = some e2 ∧
      e2.time_stamp = e.time_stamp := by
  induction l with
  | nil => intro st id e h; exact ⟨e, h, rfl⟩
  | cons id0 rest ih =>
    intro st id e h
    cases h0 : storeGet st id0 with
    | none =>
      simp only [queryLoop, h0]
      exact ⟨e, h, rfl⟩
    | some entry =>
      have hts : (queryMachine (q id0) entry).1.time_stamp = entry.time_stamp :=
        queryMachineGo_time_stamp _ _ _
      cases hqm : queryMachine (q id0) entry with
      | mk e' errOpt =>
        rw [hqm] at hts
        cases errOpt with
        | none =>
          simp only [queryLoop, h0, hqm]
          by_cases hid : id0 = id
          · subst hid
            have he : entry = e := by rw [h0] at h; injection h
            obtain ⟨e2, h2, h3⟩ :=
              ih (storeSet st id0 e') id0 e' (storeGet_storeSet_self ..)
            exact ⟨e2, h2, by rw [h3, hts, he]⟩
          · exact ih (storeSet st id0 e') id e
              (by rw [storeGet_storeSet_ne _ hid]; exact h)
        | some err =>
          simp only [queryLoop, h0, hqm]
          by_cases hid : id0 = id
          · subst hid
            have he : entry = e := by rw [h0] at h; injection h
            exact ⟨e', storeGet_storeSet_self .., by rw [hts, he]⟩
          · exact ⟨e, by rw [storeGet_storeSet_ne _ hid]; exact h, rfl⟩

theorem queryLoop_lenInv {n : Nat} (q : String → Metrics → Except PyErr (List Char))
    (l : List String) : ∀ st : MetricStore, storeLenInv st n →
    storeLenInv (queryLoop q l st).1 n := by
  induction l with
  | nil => intro st h; exact h
  | cons id0 rest ih =>
    intro st h
    cases h0 : storeGet st id0 with
    | none =>
      simp only [queryLoop, h0]
      exact h
    | some entry =>
      have hlen : lenOk (queryMachine (q id0) entry).1 n :=
        queryMachineGo_lenOk _ _ _ (h _ (storeGet_mem h0))
      have hset : storeLenInv (storeSet st id0 (queryMachine (q id0) entry).1) n := by
        intro p hp
        rcases List.mem_cons.1 hp with rfl | hp
        · exact hlen
        · exact h _ hp
      cases hqm : queryMachine (q id0) entry with
      | mk e' errOpt =>
        rw [hqm] at hset
        cases errOpt with
        | none =>
          simp only [queryLoop, h0, hqm]
          exact ih _ hset
        | some err =>
          simp only [queryLoop, h0, hqm]
          exact hset

theorem refresh_lenInv {n : Nat} {st : MetricStore} (interval : ℚ)
    (listing : List String) (h : storeLenInv st n) :
    storeLenInv (VboxMetricDaemon.refresh_metrics_storage st listing n interval) n := by
  intro p hp
  unfold VboxMetricDaemon.refresh_metrics_storage at hp
  obtain ⟨id, _, rfl⟩ := List.mem_map.1 hp
  cases h0 : storeGet st id with
  | none =>
    simp only [h0]
    simp [lenOk, freshVmMetrics]
  | some e =>
    simp only [h0]
    exact h _ (storeGet_mem h0)

theorem linspace_length (a b : ℚ) (num : Nat) : (linspace a b num).length = num := by
  unfold linspace
  split_ifs with h0 h1
  · simp [h0]
  · simp [h1]
  · simp

theorem linspace_getElem? (a b : ℚ) {num : Nat} (h2 : 2 ≤ num) {i : Nat}
    (hi : i < num) :
    (linspace a b num)[i]? = some (a + i * (b - a) / ((num : ℚ) - 1)) := by
  unfold linspace
  rw [if_neg (by omega), if_neg (by omega), List.getElem?_map,
    List.getElem?_range hi]
  rfl

theorem linspace_sorted (a b : ℚ) (num : Nat) (hab : a ≤ b) :
    (linspace a b num).Sorted (· ≤ ·) := by
  unfold linspace
  split_ifs with h0 h1
  · simp
  · simp
  · have h2 : (2 : ℚ) ≤ (num : ℚ) := by exact_mod_cast (by omega : 2 ≤ num)
    refine List.Pairwise.map _ ?_ (List.pairwise_lt_range num)
    intro i j hij
    apply add_le_add_left
    apply div_le_div_of_nonneg_right ?_ (by linarith)
    have hcast : (i : ℚ) ≤ (j : ℚ) := by exact_mod_cast hij.le
    have hba : (0 : ℚ) ≤ b - a := by linarith
    exact mul_le_mul_of_nonneg_right hcast hba

/-! ## Claim theorems -/

/-- The query function used to exhibit the daemon loop's behaviour when a
single counter of a single machine fails: the `metrics query` invocation
for machine `"m1"`, counter `Guest/CPU/Load/Kernel` raises, and every
other (machine, counter) query succeeds with a well-formed value line. -/
def c1Query : String → Metrics → Except PyErr (List Char) := fun id m =>
  if id = "m1" ∧ m = .GUEST_CPU_LOAD_KERNEL then .error .procError
  else .ok (m.value ++ " 5\n".data)

/-- C1: the code contradicts the claimed per-counter isolation.  With two
machines listed and only machine `m1`'s first counter failing, the tick
aborts with the re-raised exception (`log_error` logs and then re-raises,
vbox.py:234-240, terminating `_query_metrics`), machine `m2`'s buffers
never receive their appends (they stay exactly the freshly seeded entry),
`m1`'s remaining counters are never appended either, even though `m2`'s
query would have succeeded with value `5`. -/
theorem c1_counter_failure_aborts_daemon_tick :
    (VboxMetricDaemon.query_metrics_tick tick_number interval_seconds c1Query
        ["m1", "m2"] []).2 = some PyErr.procError
  ∧ storeGet (VboxMetricDaemon.query_metrics_tick tick_number interval_seconds c1Query
        ["m1", "m2"] []).1 "m2" = some (freshVmMetrics tick_number interval_seconds)
  ∧ storeGet (VboxMetricDaemon.query_metrics_tick tick_number interval_seconds c1Query
        ["m1", "m2"] []).1 "m1" = some (freshVmMetrics tick_number interval_seconds)
  ∧ (∃ s, c1Query "m2" Metrics.GUEST_CPU_LOAD_KERNEL = .ok s ∧
      VirtualMachine.query_metric s Metrics.GUEST_CPU_LOAD_KERNEL.value
        Metrics.GUEST_CPU_LOAD_KERNEL.converter = some (PyFloat.val 5)) := by
  refine ⟨rfl, rfl, rfl, ⟨_, rfl, ?_⟩⟩
  have h : VirtualMachine.query_metric
      (Metrics.GUEST_CPU_LOAD_KERNEL.value ++ " 5\n".data)
      Metrics.GUEST_CPU_LOAD_KERNEL.value Metrics.GUEST_CPU_LOAD_KERNEL.converter =
      some (PyFloat.val (1 * ((5 : ℕ) : ℚ))) := rfl
  rw [h]
  norm_num

/-- C2 counterexample: an entry created for machine `"a"` is dropped by a
resynchronization whose listing no longer contains `"a"` — the dict
comprehension in `_refresh_metrics_storage` (vbox.py:271-286) rebuilds
`self.metrics` from the current listing only, so the claimed additive-only
membership fails. -/
theorem c2_counterexample_vanished_entry_dropped :
    storeGet (VboxMetricDaemon.refresh_metrics_storage
      [("a", freshVmMetrics tick_number interval_seconds)] ["b"]
      tick_number interval_seconds) "a" = none := rfl

/-- C2 (amended): after a resynchronization, an id that appears in the
machine-listing result keeps its existing accumulated entry (or gets a
fresh one if it had none), while an id absent from the listing has no
entry any more — membership is rebuilt from the listing, not additive. -/
theorem c2_refresh_membership (st : MetricStore) (listing : List String)
    (n : Nat) (interval : ℚ) (id : String) :
    storeGet (VboxMetricDaemon.refresh_metrics_storage st listing n interval) id =
      if id ∈ listing then some ((storeGet st id).getD (freshVmMetrics n interval))
      else none :=
  storeGet_refresh st listing n interval id

/-- C5: reload atomicity.  Running `reload` with a failing process
invocation returns that error to the caller and leaves the attribute
snapshot exactly as it was; with a successful invocation the snapshot is
replaced wholesale by the parse of the new stdout.  No partial snapshot is
ever installed. -/
theorem c5_reload_atomicity {ε : Type} (d : AttrDict) (res : Except ε (List Char)) :
    ((VirtualMachineInfo.reload res).run).run d =
      match res with
      | .error e => (.error e, d)
      | .ok out => (.ok (), parse_vminfo out) := by
  cases res <;> rfl

/-- C6: unit-aware numeric parsing, at the spec's sample points:
`parse_bytes "2 MB" = 2·1024·1024`, `parse_bytes "1024 KB" = 1024·1024`,
`parse_bytes "512" = 512` (plain decimal fallback), and
`parse_percent "12.5%" = 12.5`. -/
theorem c6_unit_aware_parsing :
    parse_bytes "2 MB".data = some (PyFloat.val (2 * 1024 * 1024))
  ∧ parse_bytes "1024 KB".data = some (PyFloat.val (1024 * 1024))
  ∧ parse_bytes "512".data = some (PyFloat.val 512)
  ∧ parse_percent "12.5%".data = some (PyFloat.val (25 / 2)) := by
  have h1 : parse_bytes "2 MB".data =
      some (PyFloat.val (1 * ((2 : ℕ) : ℚ) * ((1024 * 1024 : ℕ) : ℚ))) := rfl
  have h2 : parse_bytes "1024 KB".data =
      some (PyFloat.val (1 * ((1024 : ℕ) : ℚ) * ((1024 : ℕ) : ℚ))) := rfl
  have h3 : parse_bytes "512".data = some (PyFloat.val (1 * ((512 : ℕ) : ℚ))) := rfl
  have h4 : parse_percent "12.5%".data =
      some (PyFloat.val (1 * (((12 : ℕ) : ℚ) + ((5 : ℕ) : ℚ) / (10 : ℚ) ^ (1 : ℕ)))) := rfl
  rw [h1, h2, h3, h4]
  norm_num

/-- The lifecycle-state decoding table: the seven recognized raw strings
and the variant each denotes (spec §6). -/
def recognizedStates : List (List Char × VMState) :=
  [("running".data, .Running), ("poweroff".data, .PowerOff),
   ("paused".data, .Paused), ("saving".data, .Saving), ("saved".data, .Saved),
   ("restoring".data, .Restoring), ("aborted".data, .Aborted)]

/-- First-match association lookup over the decoding table. -/
def lookupState (s : List Char) : List (List Char × VMState) → Option VMState
  | [] => none
  | (k, v) :: rest => if s = k then some v else lookupState s rest

/-- C7: total lifecycle-state decoding.  For every attribute snapshot, the
derived state is the variant associated with the case-folded `VMState`
value in the recognized table when that value is recognized, and `Other`
otherwise — including when the `VMState` attribute is missing (the lookup
then case-folds the empty default).  `state` is a total function, so
decoding never raises. -/
theorem c7_lifecycle_state_decoding_total (d : AttrDict) :
    VirtualMachineInfo.state d =
      ((lookupState (pyCasefold (dictGetD d "VMState".data []))
        recognizedStates).getD VMState.Other) := by
  unfold VirtualMachineInfo.state
  generalize pyCasefold (dictGetD d "VMState".data []) = s
  simp only [VMState.ofRaw, recognizedStates, lookupState]
  split_ifs <;> rfl

/-- C8: lifecycle advisory confirmation.  Each handler issues exactly one
hypervisor subcommand, waits the fixed one-second settle delay, reloads
the machine info exactly once, and reports success exactly when the
reloaded state equals the operation's expected target state (`Running` for
start/resume, `PoweredOff` for shutdown/kill, `Paused` for pause, `Saved`
for save); there is no automatic retry. -/
theorem c8_lifecycle_advisory_confirmation (op : LifecycleOp) (id : String)
    (reloaded : VMState) :
    (vmControlHandler op id reloaded).issued = lifecycleCommands op id
  ∧ (lifecycleCommands op id).length = 1
  ∧ (vmControlHandler op id reloaded).reloads = 1
  ∧ (vmControlHandler op id reloaded).settleDelaySeconds = 1
  ∧ ((vmControlHandler op id reloaded).success = true ↔
      reloaded = expectedTargetState op)
  ∧ expectedTargetState .start = .Running
  ∧ expectedTargetState .shutdown = .PowerOff
  ∧ expectedTargetState .kill = .PowerOff
  ∧ expectedTargetState .pause = .Paused
  ∧ expectedTargetState .save = .Saved
  ∧ expectedTargetState .resume = .Running := by
  refine ⟨rfl, ?_, rfl, rfl, ?_, rfl, rfl, rfl, rfl, rfl, rfl⟩
  · cases op <;> rfl
  · simp [vmControlHandler]

/-- C4: metric-unavailable is a value, not an error.  If the counter's raw
name does not occur in the query's stdout, or the remainder of the first
line containing the name is empty after deleting the name and trimming
whitespace, then `query_metric` with the counter's own converter returns
the `nan` value (the converter applied to `"nan"`) and does not raise. -/
theorem c4_metric_unavailable_is_nan (stdout : List Char) (m : Metrics)
    (h : pyFind m.value stdout = none ∨
      ∃ i, pyFind m.value stdout = some i ∧
        pyStrip (pyReplaceAll m.value (lineSliceAt stdout i)) = []) :
    VirtualMachine.query_metric stdout m.value m.converter = some PyFloat.nan := by
  have hnan : m.converter "nan".data = some PyFloat.nan := by
    cases m <;> rfl
  unfold VirtualMachine.query_metric
  rcases h with h | ⟨i, hi, hempty⟩
  · rw [h]
    exact hnan
  · simp only [hi]
    rw [if_pos hempty]
    exact hnan

/-- Witness for C4 at concrete stdouts: the name-absent case and the
empty-value-field case both yield `nan`. -/
theorem c4_metric_unavailable_is_nan_witness :
    VirtualMachine.query_metric "time 12:00\n".data
      Metrics.GUEST_RAM_USAGE_FREE.value Metrics.GUEST_RAM_USAGE_FREE.converter =
      some PyFloat.nan
  ∧ VirtualMachine.query_metric "Guest/CPU/Load/User   \nrest\n".data
      Metrics.GUEST_CPU_LOAD_USER.value Metrics.GUEST_CPU_LOAD_USER.converter =
      some PyFloat.nan :=
  ⟨c4_metric_unavailable_is_nan _ _ (Or.inl (by decide)),
   c4_metric_unavailable_is_nan _ _ (Or.inr ⟨0, by decide, by decide⟩)⟩

/-- C10: last-line truncation.  When the first occurrence of the counter
name lies on the final line of stdout and that line has no terminating
newline, `stdout.find("\n", i)` returns `-1` and the slice
`stdout[i:-1]` stops one character early: what gets converted is computed
from the final line with its last character removed (`dropLast`), not from
the full line. -/
theorem c10_last_line_truncation (stdout name : List Char)
    (conv : List Char → Option PyFloat) (i : Nat)
    (hfind : pyFind name stdout = some i)
    (hnoeol : pyFindCharFrom stdout '\n' i = none) :
    VirtualMachine.query_metric stdout name conv =
      (if pyStrip (pyReplaceAll name ((stdout.drop i).dropLast)) = [] then
        conv "nan".data
      else conv (pyStrip (pyReplaceAll name ((stdout.drop i).dropLast)))) := by
  have hslice : lineSliceAt stdout i = (stdout.drop i).dropLast := by
    unfold lineSliceAt
    rw [hnoeol, List.drop_take, List.dropLast_eq_take, List.length_drop,
      Nat.sub_right_comm]
  unfold VirtualMachine.query_metric
  simp only [hfind, hslice]

/-- Witness for C10: with stdout `"Guest/CPU/Load/User 42%"` (name on the
unterminated final line) the converted text is `"42"` — the trailing `%`
was cut off by the `-1` slice — and the result is `42`. -/
theorem c10_last_line_truncation_witness :
    VirtualMachine.query_metric "Guest/CPU/Load/User 42%".data
      "Guest/CPU/Load/User".data parse_percent = some (PyFloat.val 42) := by
  have h := c10_last_line_truncation "Guest/CPU/Load/User 42%".data
    "Guest/CPU/Load/User".data parse_percent 0 (by decide) (by decide)
  rw [h]
  have h2 : (if pyStrip (pyReplaceAll "Guest/CPU/Load/User".data
      (("Guest/CPU/Load/User 42%".data.drop 0).dropLast)) = [] then
        parse_percent "nan".data
      else parse_percent (pyStrip (pyReplaceAll "Guest/CPU/Load/User".data
        (("Guest/CPU/Load/User 42%".data.drop 0).dropLast)))) =
      some (PyFloat.val (1 * ((42 : ℕ) : ℚ))) := rfl
  rw [h2]
  norm_num

/-- C3: fixed-length series invariant.  Fresh entries seed every tracked
counter with `N = 120` copies of `NaN`; a whole daemon tick (membership
resynchronization followed by the query loop, however the queries succeed
or fail) preserves the all-length-120 invariant of the store; a counter
whose query fails (execution or parse error) has its series left
completely unmodified by the machine's query pass; and a successful
append-and-pop drops exactly the oldest sample and appends the new one. -/
theorem c3_series_fixed_length (T : ℚ)
    (q : String → Metrics → Except PyErr (List Char)) (listing : List String)
    (st : MetricStore) (hst : storeLenInv st 120)
    (qm : Metrics → Except PyErr (List Char)) (e : VmMetrics) (m : Metrics)
    (hfail : counterQueryFails qm m)
    (l : List PyFloat) (hl : l ≠ []) (v : PyFloat) :
    (∀ m2 : Metrics,
      (freshVmMetrics tick_number T).get m2 = List.replicate 120 PyFloat.nan)
  ∧ storeLenInv (VboxMetricDaemon.query_metrics_tick tick_number T q listing st).1 120
  ∧ ((queryMachine qm e).1).get m = e.get m
  ∧ appendPop l v = l.tail ++ [v] := by
  refine ⟨?_, ?_, ?_, ?_⟩
  · intro m2
    cases m2 <;> rfl
  · exact queryLoop_lenInv q listing _ (refresh_lenInv T listing hst)
  · exact queryMachineGo_get_of_fails hfail tickOrder e
  · cases l with
    | nil => exact absurd rfl hl
    | cons c t => rfl

/-- Witness for C3 at concrete inputs: the empty store (trivially
invariant), a listing of one machine, all queries failing. -/
theorem c3_series_fixed_length_witness :
    (freshVmMetrics tick_number interval_seconds).get Metrics.DISK_USAGE_USED =
      List.replicate 120 PyFloat.nan
  ∧ storeLenInv (VboxMetricDaemon.query_metrics_tick tick_number interval_seconds
      (fun _ _ => .error .procError) ["m"] []).1 120
  ∧ ((queryMachine (fun _ => .error .procError)
      (freshVmMetrics tick_number interval_seconds)).1).get
        Metrics.GUEST_CPU_LOAD_USER =
      (freshVmMetrics tick_number interval_seconds).get Metrics.GUEST_CPU_LOAD_USER
  ∧ appendPop [PyFloat.nan] PyFloat.nan = [PyFloat.nan].tail ++ [PyFloat.nan] := by
  have h := c3_series_fixed_length interval_seconds
    (fun _ _ => .error .procError) ["m"] [] (by intro p hp; cases hp)
    (fun _ => .error .procError) (freshVmMetrics tick_number interval_seconds)
    Metrics.GUEST_CPU_LOAD_USER (Or.inl ⟨.procError, rfl⟩)
    [PyFloat.nan] (by simp) PyFloat.nan
  exact ⟨h.1 _, h.2.1, h.2.2.1, h.2.2.2⟩

/-- C9: shape and immutability of the synthetic `time_stamp` series.  At
entry creation it holds exactly 120 offsets: first `-(120·interval)`, last
`0`, consecutive offsets a constant `120·interval/119` apart, and the
sequence is non-decreasing for a non-negative interval.  Resynchronization
keeps an existing listed entry untouched, and a daemon tick never changes
any surviving entry's `time_stamp`, whatever the queries return. -/
theorem c9_relative_time_series (T : ℚ) (hT : 0 ≤ T) (st : MetricStore)
    (listing : List String) (q : String → Metrics → Except PyErr (List Char))
    (id : String) (e : VmMetrics) (hmem : id ∈ listing)
    (hget : storeGet st id = some e) :
    (freshVmMetrics tick_number T).time_stamp.length = 120
  ∧ (freshVmMetrics tick_number T).time_stamp.head? = some (-(120 * T))
  ∧ (freshVmMetrics tick_number T).time_stamp.getLast? = some 0
  ∧ (∀ i : Nat, i + 1 < 120 →
      (freshVmMetrics tick_number T).time_stamp.getD (i + 1) 0 -
        (freshVmMetrics tick_number T).time_stamp.getD i 0 = 120 * T / 119)
  ∧ (freshVmMetrics tick_number T).time_stamp.Sorted (· ≤ ·)
  ∧ storeGet (VboxMetricDaemon.refresh_metrics_storage st listing tick_number T)
      id = some e
  ∧ (∃ e2, storeGet (VboxMetricDaemon.query_metrics_tick tick_number T q
        listing st).1 id = some e2 ∧ e2.time_stamp = e.time_stamp) := by
  have hts : (freshVmMetrics tick_number T).time_stamp =
      linspace (-((tick_number : ℚ) * T)) 0 tick_number := rfl
  have h2n : 2 ≤ tick_number := by norm_num [tick_number]
  have hrefresh : storeGet
      (VboxMetricDaemon.refresh_metrics_storage st listing tick_number T) id =
      some e := by
    rw [storeGet_refresh, if_pos hmem, hget]
    rfl
  refine ⟨?_, ?_, ?_, ?_, ?_, hrefresh, ?_⟩
  · rw [hts, linspace_length]
    rfl
  · rw [hts, List.head?_eq_getElem?,
      linspace_getElem? _ _ h2n (by norm_num [tick_number])]
    congr 1
    push_cast [tick_number]
    ring
  · rw [hts, List.getLast?_eq_getElem?, linspace_length,
      linspace_getElem? _ _ h2n (by norm_num [tick_number])]
    congr 1
    push_cast [tick_number]
    ring
  · intro i hi
    rw [hts, List.getD_eq_getElem?_getD, List.getD_eq_getElem?_getD,
      linspace_getElem? _ _ h2n (by simpa [tick_number] using hi),
      linspace_getElem? _ _ h2n (by simp [tick_number]; omega)]
    simp only [Option.getD_some]
    push_cast [tick_number]
    ring
  · rw [hts]
    refine linspace_sorted _ _ _ ?_
    have hpos : (0 : ℚ) ≤ (tick_number : ℚ) * T :=
      mul_nonneg (by positivity) hT
    linarith
  · obtain ⟨e2, h2, h3⟩ := queryLoop_storeGet_ts q listing _ id e hrefresh
    exact ⟨e2, h2, h3⟩

/-- Witness for C9 at concrete inputs: the daemon's default interval, a
one-machine store and listing, all queries failing. -/
theorem c9_relative_time_series_witness :
    (freshVmMetrics tick_number interval_seconds).time_stamp.length = 120
  ∧ (freshVmMetrics tick_number interval_seconds).time_stamp.head? =
      some (-(120 * interval_seconds))
  ∧ (freshVmMetrics tick_number interval_seconds).time_stamp.getLast? = some 0
  ∧ ((freshVmMetrics tick_number interval_seconds).time_stamp.getD 1 0 -
      (freshVmMetrics tick_number interval_seconds).time_stamp.getD 0 0 =
      120 * interval_seconds / 119)
  ∧ (freshVmMetrics tick_number interval_seconds).time_stamp.Sorted (· ≤ ·)
  ∧ storeGet (VboxMetricDaemon.refresh_metrics_storage
      [("m", freshVmMetrics tick_number interval_seconds)] ["m"] tick_number
      interval_seconds) "m" = some (freshVmMetrics tick_number interval_seconds)
  ∧ (∃ e2, storeGet (VboxMetricDaemon.query_metrics_tick tick_number
        interval_seconds (fun _ _ => .error .procError) ["m"]
        [("m", freshVmMetrics tick_number interval_seconds)]).1 "m" =
        some e2 ∧
      e2.time_stamp = (freshVmMetrics tick_number interval_seconds).time_stamp) := by
  have h := c9_relative_time_series interval_seconds
    (by norm_num [interval_seconds]) [("m", freshVmMetrics tick_number interval_seconds)]
    ["m"] (fun _ _ => .error .procError) "m"
    (freshVmMetrics tick_number interval_seconds) (by simp) rfl
  exact ⟨h.1, h.2.1, h.2.2.1, h.2.2.2.1 0 (by norm_num), h.2.2.2.2.1,
    h.2.2.2.2.2.1, h.2.2.2.2.2.2⟩

end ServerManager
